import Mathlib

/-!
Verification of the EchoFlow request-processing core against its source.

The Go source is shallowly embedded: strings are Lean `String`s manipulated
through structurally recursive helpers over their character lists (so that
every definition evaluates by `decide`/`rfl`), library effects (HTTP
exchange, JSON decoding, the request context) are passed in as explicit
arguments, and each Go function is translated statement by statement.
Go's `unicode.IsSpace` is modelled by `Char.isWhitespace`, which covers the
ASCII whitespace the code and its tests exercise.
-/

/-- Characters stripped by Go's `strings.TrimSpace` (ASCII fragment). -/
def isSpace (c : Char) : Bool :=
  c.isWhitespace

/-- Drop whitespace from both ends of a character list. -/
def trimChars (l : List Char) : List Char :=
  ((l.dropWhile isSpace).reverse.dropWhile isSpace).reverse

/-- Model of Go `strings.TrimSpace`. -/
def trimSpace (s : String) : String :=
  ⟨trimChars s.data⟩

/-- Splitter underlying Go `strings.FieldsFunc`: cut at every character
satisfying `p` and drop empty fields. The second argument accumulates the
current field in reverse. -/
def fieldsFuncAux (p : Char → Bool) : List Char → List Char → List (List Char)
  | [], cur => if cur.isEmpty then [] else [cur.reverse]
  | c :: cs, cur =>
    if p c then
      if cur.isEmpty then fieldsFuncAux p cs []
      else cur.reverse :: fieldsFuncAux p cs []
    else fieldsFuncAux p cs (c :: cur)

/-- Model of Go `strings.FieldsFunc`. -/
def fieldsFunc (p : Char → Bool) (s : String) : List String :=
  (fieldsFuncAux p s.data []).map String.mk

/-- Model of Go `strings.ToLower` (ASCII fragment, via `Char.toLower`). -/
def lowerStr (s : String) : String :=
  ⟨s.data.map Char.toLower⟩

/-- Whether the first character of `s` is `c` (Go `strings.HasPrefix` with a
one-character pattern). -/
def startsWithChar (s : String) (c : Char) : Bool :=
  match s.data with
  | [] => false
  | d :: _ => d = c

/-- Whether the last character of `s` is `c` (Go `strings.HasSuffix` with a
one-character pattern). -/
def endsWithChar (s : String) (c : Char) : Bool :=
  match s.data.getLast? with
  | none => false
  | some d => d = c

/-! ## postprocess package -/

/-- Token usage triple reported by the upstream (`openai.TokenUsage`). -/
structure TokenUsage where
  promptTokens : Int
  completionTokens : Int
  totalTokens : Int
deriving DecidableEq, Repr

/-- Translation of `sanitizePostProcessedTranscript` (postprocess package):
trim, strip one layer of surrounding double quotes, map `"EMPTY"` to `""`. -/
def sanitizePostProcessedTranscript (value : String) : String :=
  let result := trimSpace value
  if result = "" then ""
  else
    let result :=
      if startsWithChar result '"' = true ∧ endsWithChar result '"' = true ∧
          result.length > 1 then
        trimSpace ⟨(result.data.drop 1).dropLast⟩
      else result
    if result = "EMPTY" then "" else result

/-- Delimiter set of `mergedVocabularyTerms`: newline, comma, semicolon. -/
def vocabDelim (c : Char) : Bool :=
  c = '\n' || c = ',' || c = ';'

/-- One iteration of the loop in `mergedVocabularyTerms`: the pair is the
`seen` set (as a list of lowered keys) and the accumulated `terms`. -/
def vocabStep (acc : List String × List String) (field : String) :
    List String × List String :=
  let term := trimSpace field
  if term = "" then acc
  else if lowerStr term ∈ acc.1 then acc
  else (lowerStr term :: acc.1, acc.2 ++ [term])

/-- Translation of `mergedVocabularyTerms` (postprocess package). -/
def mergedVocabularyTerms (rawVocabulary : String) : List String :=
  ((fieldsFunc vocabDelim rawVocabulary).foldl vocabStep ([], [])).2

/-! ## upstream/openai package -/

/-- An HTTP response the upstream returned (`resp.StatusCode`, body bytes). -/
structure UpstreamResponse where
  status : Nat
  body : String
deriving DecidableEq, Repr

/-- Errors an upstream client call can produce: transport failure, a non-OK
HTTP response (`*openai.Error` with status and truncated body), or a response
the client could not interpret. -/
inductive ClientError where
  | network
  | upstream (status : Nat) (body : String)
  | invalid (message : String)
deriving DecidableEq, Repr

deriving instance DecidableEq for Except

/-- What the injected `ObserverFunc` receives: endpoint label, HTTP status,
elapsed wall time (milliseconds). -/
structure Observation where
  endpoint : String
  status : Nat
  elapsedMs : Nat
deriving DecidableEq, Repr

/-- Result of one client call together with the Authorization header that was
sent and the observation delivered to the observer. -/
structure CallResult (α : Type) where
  result : Except ClientError α
  authHeader : String
  observation : Observation
deriving DecidableEq, Repr

/-- Translation of `truncateBody` (openai package): trim, cap at 4096
characters, append an ellipsis when the cap cut text off. -/
def truncateBody (s : String) : String :=
  let t := trimSpace s
  if t.length ≤ 4096 then t else ⟨t.data.take 4096⟩ ++ "..."

/-- Translation of `joinLines` (openai package): split on `\n`/`\r` runs
(`strings.FieldsFunc`) and rejoin with single spaces. -/
def joinLines (s : String) : String :=
  ⟨List.intercalate [' '] (fieldsFuncAux (fun c => c = '\n' || c = '\r') s.data [])⟩

/-- Translation of `parseTranscript` (openai package). The outcome of
`json.Unmarshal` on the body is supplied as `jsonText`: `some t` when the
body decodes to a JSON object whose `text` field is `t`, `none` when
unmarshalling fails. -/
def parseTranscript (jsonText : Option String) (data : String) :
    Except ClientError String :=
  if jsonText.getD "" ≠ "" then .ok (jsonText.getD "")
  else
    let plainText := trimSpace (joinLines data)
    if plainText = "" then .error (.invalid "invalid transcription response")
    else .ok plainText

/-- The fields `parseChatCompletion` reads out of a decoded chat-completion
body: the `choices[i].message.content` strings and the optional `usage`. -/
structure ChatPayload where
  choices : List String
  usage : Option TokenUsage
deriving DecidableEq, Repr

/-- Normalized chat-completion result (`openai.ChatCompletionResponse`). -/
structure ChatCompletionResponse where
  content : String
  usage : Option TokenUsage
deriving DecidableEq, Repr

/-- Translation of `parseChatCompletion` (openai package); `parsed` is the
outcome of `json.Unmarshal` on the body (`none` = unmarshal error). -/
def parseChatCompletion (parsed : Option ChatPayload) :
    Except ClientError ChatCompletionResponse :=
  match parsed with
  | none => .error (.invalid "invalid chat completion response")
  | some p =>
    match p.choices with
    | [] => .error (.invalid "missing choices")
    | c :: _ =>
      if c = "" then .error (.invalid "missing choices[0].message.content")
      else .ok { content := c, usage := p.usage }

/-- Translation of `Client.Transcribe` (openai package), from the statement
`started := time.Now()` onwards. `apiKey` is the field set by `New` (already
trimmed); `reqAPIKey` is the request-scoped credential carried by `ctx`
(attached by the HTTP gateway, unused by this function in the source);
`response` is `none` when `httpClient.Do` fails, otherwise the response;
`elapsedMs` is the wall time the whole call takes; `jsonText` is the
`json.Unmarshal` outcome for the body as in `parseTranscript`.
The source defers `c.observe("audio_transcriptions", statusCode,
time.Since(started))` right after initialising `statusCode := 0`; Go
evaluates a deferred call's arguments at the `defer` statement itself, so
the observation is fixed at that point — status `0` and an elapsed time of
`0` — and the later `statusCode = resp.StatusCode` assignment does not
change it. -/
def clientTranscribe (apiKey : String) (reqAPIKey : Option String)
    (response : Option UpstreamResponse) (elapsedMs : Nat)
    (jsonText : Option String) : CallResult String :=
  let observation : Observation :=
    { endpoint := "audio_transcriptions", status := 0, elapsedMs := 0 }
  let authHeader := "Bearer " ++ apiKey
  match response with
  | none => { result := .error .network, authHeader, observation }
  | some resp =>
    if resp.status ≠ 200 then
      { result := .error (.upstream resp.status (truncateBody resp.body)),
        authHeader, observation }
    else
      { result := parseTranscript jsonText resp.body, authHeader, observation }

/-- Translation of `Client.ChatCompletion` (openai package); same deferred
observation and header handling as `clientTranscribe`, with the decoded body
supplied as `parsed`. -/
def clientChatCompletion (apiKey : String) (reqAPIKey : Option String)
    (response : Option UpstreamResponse) (elapsedMs : Nat)
    (parsed : Option ChatPayload) : CallResult ChatCompletionResponse :=
  let observation : Observation :=
    { endpoint := "chat_completions", status := 0, elapsedMs := 0 }
  let authHeader := "Bearer " ++ apiKey
  match response with
  | none => { result := .error .network, authHeader, observation }
  | some resp =>
    if resp.status ≠ 200 then
      { result := .error (.upstream resp.status (truncateBody resp.body)),
        authHeader, observation }
    else
      { result := parseChatCompletion parsed, authHeader, observation }

/-- Translation of `Client.CheckModels` (openai package); same deferred
observation and header handling as `clientTranscribe`. -/
def clientCheckModels (apiKey : String) (reqAPIKey : Option String)
    (response : Option UpstreamResponse) (elapsedMs : Nat) :
    CallResult Unit :=
  let observation : Observation :=
    { endpoint := "models", status := 0, elapsedMs := 0 }
  let authHeader := "Bearer " ++ apiKey
  match response with
  | none => { result := .error .network, authHeader, observation }
  | some resp =>
    if resp.status ≠ 200 then
      { result := .error (.upstream resp.status (truncateBody resp.body)),
        authHeader, observation }
    else
      { result := .ok (), authHeader, observation }

/-! ## httpapi package (authentication middleware) -/

/-- Translation of `extractBearerToken` (httpapi package): returns
`(token, hasHeader, ok)`. -/
def extractBearerToken (header : String) : String × Bool × Bool :=
  let h := trimSpace header
  if h = "" then ("", false, true)
  else if h.data.take 7 ≠ "Bearer ".data then ("", true, false)
  else
    let token := trimSpace ⟨h.data.drop 7⟩
    if token = "" then ("", true, false) else (token, true, true)

/-- Translation of `isPublicPath` (httpapi package). -/
def isPublicPath (path : String) : Bool :=
  path = "/healthz" || path = "/readyz" || path = "/metrics"

/-- What the authentication middleware does with a request: write a 401 error
response, or pass it on (with the caller token attached to the request
context when present). -/
inductive AuthDecision where
  | reject401 (message : String)
  | proceed (requestAPIKey : Option String)
deriving DecidableEq, Repr

/-- Translation of `server.authMiddleware` (httpapi package).
`upstreamAPIKey` is `s.cfg.UpstreamAPIKey`, `path` is `r.URL.Path`,
`authHeader` is the `Authorization` request header. -/
def authMiddleware (upstreamAPIKey path authHeader : String) : AuthDecision :=
  let e := extractBearerToken authHeader
  let token := e.1
  let hasHeader := e.2.1
  let ok := e.2.2
  if hasHeader = true ∧ ok = false then
    .reject401 "Authorization must be Bearer <groq_cloud_token>"
  else if isPublicPath path = false ∧ token = "" ∧ upstreamAPIKey = "" then
    .reject401 "missing Groq Cloud bearer token"
  else .proceed (if token ≠ "" then some token else none)

/-! ## postprocess / pipeline services -/

/-- Result of `postprocess.Service.Process` (`postprocess.Result`). -/
structure PostResult where
  transcript : String
  usage : Option TokenUsage
deriving DecidableEq, Repr

/-- Translation of `postprocess.Service.Process` after the chat-completion
call: `chatOutcome` is what `ChatCompletion` returned. On success the content
is sanitized and the usage struct copied field by field. -/
def postprocessProcess (chatOutcome : Except String ChatCompletionResponse) :
    Except String PostResult :=
  match chatOutcome with
  | .error e => .error e
  | .ok resp =>
    .ok { transcript := sanitizePostProcessedTranscript resp.content,
          usage := resp.usage }

/-- Result of `pipeline.Service.Process` (`pipeline.ProcessResult`), timings
omitted (wall-clock values, not constrained by the claims). -/
structure ProcessResult where
  rawTranscript : String
  finalTranscript : String
  postProcessingStatus : String
  postProcessingUsage : Option TokenUsage
deriving DecidableEq, Repr

/-- Translation of `pipeline.Service.Process`: `transcribed` is what the
transcriber returned, `postProcess` maps the trimmed raw transcript to the
post-processor's outcome. -/
def pipelineProcess (transcribed : Except String String)
    (postProcess : String → Except String PostResult) :
    Except String ProcessResult :=
  match transcribed with
  | .error e => .error e
  | .ok raw0 =>
    let rawTranscript := trimSpace raw0
    match postProcess rawTranscript with
    | .error _ =>
      .ok { rawTranscript, finalTranscript := rawTranscript,
            postProcessingStatus := "Post-processing failed, using raw transcript",
            postProcessingUsage := none }
    | .ok postResult =>
      .ok { rawTranscript,
            finalTranscript := trimSpace postResult.transcript,
            postProcessingStatus := "Post-processing succeeded",
            postProcessingUsage := postResult.usage }

/-! ## Helper lemmas -/

/-- Unfolding `String.mk` data. -/
theorem string_mk_data (l : List Char) : (String.mk l).data = l := rfl

/-- String concatenation concatenates the character lists. -/
theorem string_append_data (a b : String) : (a ++ b).data = a.data ++ b.data := rfl

/-- The length of a concatenation is the sum of the lengths. -/
theorem string_length_append (a b : String) :
    (a ++ b).length = a.length + b.length := by
  show (a.data ++ b.data).length = a.data.length + b.data.length
  exact List.length_append _ _

/-- The length of a string built from a character list. -/
theorem string_mk_length (l : List Char) : (String.mk l).length = l.length := rfl

/-- The loop body of `mergedVocabularyTerms` preserves its invariant: every
accumulated term is non-empty with its lowered form recorded in `seen`, and
the accumulated terms have pairwise distinct lowered forms. -/
theorem vocabStep_inv (acc : List String × List String) (field : String)
    (h1 : ∀ t ∈ acc.2, t ≠ "" ∧ lowerStr t ∈ acc.1)
    (h2 : acc.2.Pairwise fun a b => lowerStr a ≠ lowerStr b) :
    (∀ t ∈ (vocabStep acc field).2,
        t ≠ "" ∧ lowerStr t ∈ (vocabStep acc field).1) ∧
    (vocabStep acc field).2.Pairwise fun a b => lowerStr a ≠ lowerStr b := by
  by_cases ht : trimSpace field = ""
  · simpa [vocabStep, ht] using ⟨h1, h2⟩
  · by_cases hm : lowerStr (trimSpace field) ∈ acc.1
    · simpa [vocabStep, ht, hm] using ⟨h1, h2⟩
    · have hstep : vocabStep acc field =
          (lowerStr (trimSpace field) :: acc.1, acc.2 ++ [trimSpace field]) := by
        simp [vocabStep, ht, hm]
      rw [hstep]
      constructor
      · intro t htm
        rcases List.mem_append.1 htm with hin | hone
        · exact ⟨(h1 t hin).1, List.mem_cons_of_mem _ (h1 t hin).2⟩
        · have : t = trimSpace field := by simpa using hone
          subst this
          exact ⟨ht, List.mem_cons_self _ _⟩
      · rw [List.pairwise_append]
        refine ⟨h2, List.pairwise_singleton _ _, ?_⟩
        intro a ha b hb
        have hb' : b = trimSpace field := by simpa using hb
        subst hb'
        intro heq
        exact hm (heq ▸ (h1 a ha).2)

/-- The fold in `mergedVocabularyTerms` preserves the loop invariant. -/
theorem vocab_foldl_inv (fields : List String) (acc : List String × List String)
    (h1 : ∀ t ∈ acc.2, t ≠ "" ∧ lowerStr t ∈ acc.1)
    (h2 : acc.2.Pairwise fun a b => lowerStr a ≠ lowerStr b) :
    (∀ t ∈ (fields.foldl vocabStep acc).2,
        t ≠ "" ∧ lowerStr t ∈ (fields.foldl vocabStep acc).1) ∧
    (fields.foldl vocabStep acc).2.Pairwise
      fun a b => lowerStr a ≠ lowerStr b := by
  induction fields generalizing acc with
  | nil => exact ⟨h1, h2⟩
  | cons f fs ih =>
    have hstep := vocabStep_inv acc f h1 h2
    simpa [List.foldl_cons] using ih (vocabStep acc f) hstep.1 hstep.2

/-! ## Claims -/

/-- Claim C1: for every pipeline run whose transcription stage succeeds and
whose post-processing stage returns an error, `pipeline.Service.Process`
returns success with `final_transcript` equal to the trimmed raw transcript,
status exactly `"Post-processing failed, using raw transcript"`, and no
usage. -/
theorem c1_pipeline_fallback (raw e : String)
    (pp : String → Except String PostResult)
    (hpp : pp (trimSpace raw) = .error e) :
    pipelineProcess (.ok raw) pp =
      .ok { rawTranscript := trimSpace raw, finalTranscript := trimSpace raw,
            postProcessingStatus := "Post-processing failed, using raw transcript",
            postProcessingUsage := none } := by
  simp [pipelineProcess, hpp]

/-- Witness for C1 at a concrete run. -/
theorem c1_pipeline_fallback_witness :
    pipelineProcess (.ok "  raw transcript  ") (fun _ => .error "boom") =
      .ok { rawTranscript := "raw transcript", finalTranscript := "raw transcript",
            postProcessingStatus := "Post-processing failed, using raw transcript",
            postProcessingUsage := none } := by
  have h := c1_pipeline_fallback "  raw transcript  " "boom"
    (fun _ => .error "boom") rfl
  rw [h]; decide

/-- Claim C2 is false on the code: when post-processing succeeds with chat
content `"EMPTY"`, the sanitizer maps it to `""` and the pipeline returns an
empty `final_transcript` even though `raw_transcript` is non-empty. -/
theorem c2_counterexample :
    pipelineProcess (.ok "hello")
        (fun _ => postprocessProcess (.ok { content := "EMPTY", usage := none })) =
      .ok { rawTranscript := "hello", finalTranscript := "",
            postProcessingStatus := "Post-processing succeeded",
            postProcessingUsage := none } ∧
    ("hello" : String) ≠ "" := by decide

/-- Claim C2 (amended): when `raw_transcript` is non-empty and the pipeline
takes the fallback path, `final_transcript` equals `raw_transcript` and is
non-empty; on the success path `final_transcript` is the trimmed
post-processed transcript, which can be empty even for non-empty raw. -/
theorem c2_amended (raw e : String) (pp : String → Except String PostResult)
    (hraw : trimSpace raw ≠ "") (hpp : pp (trimSpace raw) = .error e) :
    ∃ r, pipelineProcess (.ok raw) pp = .ok r ∧
      r.finalTranscript = r.rawTranscript ∧ r.finalTranscript ≠ "" := by
  refine ⟨{ rawTranscript := trimSpace raw, finalTranscript := trimSpace raw,
            postProcessingStatus := "Post-processing failed, using raw transcript",
            postProcessingUsage := none }, ?_, rfl, hraw⟩
  simp [pipelineProcess, hpp]

/-- Witness for the amended C2 at a concrete run. -/
theorem c2_amended_witness :
    trimSpace "hi" ≠ "" ∧
    ∃ r, pipelineProcess (.ok "hi") (fun _ => .error "x") = .ok r ∧
      r.finalTranscript = r.rawTranscript ∧ r.finalTranscript ≠ "" := by
  exact ⟨by decide, c2_amended "hi" "x" (fun _ => .error "x") (by decide) rfl⟩

/-- Claim C3 fails on the code: the client defers
`c.observe(endpoint, statusCode, time.Since(started))` while `statusCode` is
still `0` and no time has elapsed, and Go evaluates deferred-call arguments
at the `defer` statement, so the observer always receives status `0` and a
zero elapsed time — here even for calls that completed with status 200 (or
503) after 250 ms. -/
theorem c3_observer_stale_arguments :
    (clientTranscribe "k" (some "caller") (some ⟨200, "body"⟩) 250 (some "hi")).result =
      .ok "hi" ∧
    (clientTranscribe "k" (some "caller") (some ⟨200, "body"⟩) 250 (some "hi")).observation =
      { endpoint := "audio_transcriptions", status := 0, elapsedMs := 0 } ∧
    (clientChatCompletion "k" (some "caller") (some ⟨200, "body"⟩) 250
        (some ⟨["hi"], none⟩)).observation =
      { endpoint := "chat_completions", status := 0, elapsedMs := 0 } ∧
    (clientCheckModels "k" (some "caller") (some ⟨503, "down"⟩) 250).observation =
      { endpoint := "models", status := 0, elapsedMs := 0 } ∧
    (0 : Nat) ≠ 200 ∧ (0 : Nat) ≠ 250 ∧ (0 : Nat) ≠ 503 := by decide

/-- Claim C4 fails on the code: the middleware attaches the caller-supplied
token to the request context, but every client call builds its Authorization
header from the server-configured key alone, so the request-scoped
credential never takes precedence. -/
theorem c4_request_credential_ignored :
    authMiddleware "server-key" "/v1/transcriptions" "Bearer user-token" =
      .proceed (some "user-token") ∧
    (clientTranscribe "server-key" (some "user-token") (some ⟨200, "x"⟩) 5
        (some "hello")).authHeader = "Bearer server-key" ∧
    (clientChatCompletion "server-key" (some "user-token") (some ⟨200, "x"⟩) 5
        (some ⟨["hi"], none⟩)).authHeader = "Bearer server-key" ∧
    (clientCheckModels "server-key" (some "user-token") (some ⟨200, "x"⟩) 5).authHeader =
      "Bearer server-key" ∧
    ("Bearer server-key" : String) ≠ "Bearer user-token" := by decide

/-- Claim C5 is false on the code: the malformed-header check runs before the
public-path check, so a present-but-malformed Authorization header is
rejected with 401 even on `/healthz`, even with a fallback credential
configured. -/
theorem c5_counterexample :
    isPublicPath "/healthz" = true ∧
    authMiddleware "fallback-key" "/healthz" "Basic abc" =
      .reject401 "Authorization must be Bearer <groq_cloud_token>" := by decide

/-- Claim C5 (amended): on public paths the middleware never rejects for a
missing credential — with the Authorization header absent or well-formed the
request always proceeds, whatever the fallback configuration — but a
present-but-malformed Authorization header is rejected with 401 even on a
public path. -/
theorem c5_amended (upstreamAPIKey path authHeader : String)
    (hpub : isPublicPath path = true) :
    ((extractBearerToken authHeader).2.1 = true ∧
        (extractBearerToken authHeader).2.2 = false →
      authMiddleware upstreamAPIKey path authHeader =
        .reject401 "Authorization must be Bearer <groq_cloud_token>") ∧
    ((extractBearerToken authHeader).2.1 = false ∨
        (extractBearerToken authHeader).2.2 = true →
      authMiddleware upstreamAPIKey path authHeader =
        .proceed (if (extractBearerToken authHeader).1 ≠ ""
                  then some (extractBearerToken authHeader).1 else none)) := by
  constructor
  · intro h
    simp [authMiddleware, h.1, h.2]
  · intro h
    have hnot : ¬((extractBearerToken authHeader).2.1 = true ∧
        (extractBearerToken authHeader).2.2 = false) := by
      rcases h with h | h <;> simp [h]
    simp [authMiddleware, hnot, hpub]

/-- Witness for the amended C5 at a concrete request. -/
theorem c5_amended_witness :
    isPublicPath "/metrics" = true ∧
    authMiddleware "" "/metrics" "" = .proceed none := by
  refine ⟨by decide, ?_⟩
  have h := (c5_amended "" "/metrics" "" (by decide)).2 (by decide)
  rw [h]; decide

/-- Claim C6: vocabulary tokenization splits on newline/comma/semicolon,
trims, drops empties and de-duplicates case-insensitively preserving
first-seen casing and order; on `"Alice, bob\nALICE; Bob; Carol"` it yields
exactly `["Alice", "bob", "Carol"]`, and in general the produced terms are
non-empty with pairwise distinct lowercase keys. -/
theorem c6_merged_vocabulary (raw : String) :
    mergedVocabularyTerms "Alice, bob\nALICE; Bob; Carol" =
      ["Alice", "bob", "Carol"] ∧
    (∀ t ∈ mergedVocabularyTerms raw, t ≠ "") ∧
    (mergedVocabularyTerms raw).Pairwise fun a b => lowerStr a ≠ lowerStr b := by
  have h := vocab_foldl_inv (fieldsFunc vocabDelim raw) ([], [])
    (by simp) (by simp)
  exact ⟨by decide, fun t ht => (h.1 t ht).1, h.2⟩

/-- Witness for C6 at the concrete input of the claim. -/
theorem c6_merged_vocabulary_witness :
    mergedVocabularyTerms "Alice, bob\nALICE; Bob; Carol" =
      ["Alice", "bob", "Carol"] ∧
    ("Alice" : String) ≠ "" := by
  refine ⟨(c6_merged_vocabulary "x").1, ?_⟩
  exact (c6_merged_vocabulary "Alice, bob\nALICE; Bob; Carol").2.1 "Alice" (by decide)

/-- Claim C7: the sanitizer is the identity on already-clean text (trimmed,
not a quote-wrapped string, not the literal `EMPTY`), and the concrete cases
hold: one layer of surrounding quotes is stripped, `"EMPTY"` maps to `""`,
padding is trimmed, and `""` stays `""`. -/
theorem c7_sanitize_clean_identity (x : String)
    (hclean : trimSpace x = x ∧
      ¬(startsWithChar x '"' = true ∧ endsWithChar x '"' = true ∧
          x.length > 1) ∧
      x ≠ "EMPTY") :
    sanitizePostProcessedTranscript x = x ∧
    sanitizePostProcessedTranscript "\"Hello world\"" = "Hello world" ∧
    sanitizePostProcessedTranscript "EMPTY" = "" ∧
    sanitizePostProcessedTranscript "  hi  " = "hi" ∧
    sanitizePostProcessedTranscript "" = "" := by
  obtain ⟨h1, h2, h3⟩ := hclean
  refine ⟨?_, by decide, by decide, by decide, by decide⟩
  by_cases hx : x = ""
  · subst hx; decide
  · simp [sanitizePostProcessedTranscript, h1, hx, h2, h3]

/-- Witness for C7 at a concrete clean string. -/
theorem c7_sanitize_witness :
    sanitizePostProcessedTranscript "Hello world" = "Hello world" ∧
    sanitizePostProcessedTranscript "EMPTY" = "" := by
  have h := c7_sanitize_clean_identity "Hello world" (by decide)
  exact ⟨h.1, h.2.2.1⟩

/-- Claim C8: every non-2xx transcription response fails with an upstream
error carrying the original status and the body excerpt: the trimmed body,
capped at 4096 characters with `"..."` appended exactly when the cap cut
text off (so the excerpt never exceeds 4099 characters). -/
theorem c8_upstream_error_truncation (apiKey : String) (reqAPIKey : Option String)
    (status : Nat) (body : String) (elapsedMs : Nat) (jsonText : Option String)
    (hnon2xx : status < 200 ∨ 300 ≤ status) :
    (clientTranscribe apiKey reqAPIKey (some ⟨status, body⟩) elapsedMs jsonText).result =
      .error (.upstream status (truncateBody body)) ∧
    (truncateBody body).length ≤ 4096 + 3 ∧
    ((trimSpace body).length ≤ 4096 → truncateBody body = trimSpace body) ∧
    (4096 < (trimSpace body).length →
      truncateBody body = ⟨(trimSpace body).data.take 4096⟩ ++ "...") := by
  have hne : status ≠ 200 := by omega
  refine ⟨by simp [clientTranscribe, hne], ?_, ?_, ?_⟩
  · by_cases h : (trimSpace body).length ≤ 4096
    · simp only [truncateBody, if_pos h]
      omega
    · simp only [truncateBody, if_neg h, string_length_append, string_mk_length,
        List.length_take]
      have h3 : ("...").length = 3 := by decide
      have h4 : (trimSpace body).data.length = (trimSpace body).length := rfl
      rw [h3, h4]
      omega
  · intro h
    simp [truncateBody, h]
  · intro h
    have h' : ¬(trimSpace body).length ≤ 4096 := by omega
    simp [truncateBody, h']

/-- Witness for C8 at a concrete 429 response. -/
theorem c8_upstream_error_witness :
    ((429 : Nat) < 200 ∨ 300 ≤ 429) ∧
    (clientTranscribe "k" none (some ⟨429, " rate limited "⟩) 3 none).result =
      .error (.upstream 429 "rate limited") := by
  refine ⟨by decide, ?_⟩
  have h := (c8_upstream_error_truncation "k" none 429 " rate limited " 3 none
    (by decide)).1
  rw [h]; decide

/-- Claim C9: on a 200 transcription response the result is given by
`parseTranscript`: a decoded JSON `text` field is returned when non-empty;
otherwise the body is treated as plain text with newline/carriage-return
runs collapsed to single spaces and trimmed; a parse error occurs exactly
when both interpretations are empty; and `"hello\nworld"` yields
`"hello world"`. -/
theorem c9_parse_transcript (jsonText : Option String) (data : String) :
    (∀ (apiKey : String) (rk : Option String) (ems : Nat),
      (clientTranscribe apiKey rk (some ⟨200, data⟩) ems jsonText).result =
        parseTranscript jsonText data) ∧
    (∀ t, jsonText = some t → t ≠ "" → parseTranscript jsonText data = .ok t) ∧
    (jsonText.getD "" = "" →
      parseTranscript jsonText data =
        if trimSpace (joinLines data) = "" then
          .error (.invalid "invalid transcription response")
        else .ok (trimSpace (joinLines data))) ∧
    ((∃ e, parseTranscript jsonText data = .error e) ↔
      jsonText.getD "" = "" ∧ trimSpace (joinLines data) = "") ∧
    parseTranscript none "hello\nworld" = .ok "hello world" := by
  refine ⟨?_, ?_, ?_, ?_, by decide⟩
  · intro apiKey rk ems
    simp [clientTranscribe]
  · intro t h1 h2
    subst h1
    simp [parseTranscript, h2]
  · intro h
    simp [parseTranscript, h]
  · constructor
    · rintro ⟨e, he⟩
      by_cases hj : jsonText.getD "" = ""
      · by_cases hp : trimSpace (joinLines data) = ""
        · exact ⟨hj, hp⟩
        · rw [show parseTranscript jsonText data = .ok (trimSpace (joinLines data))
            from by simp [parseTranscript, hj, hp]] at he
          cases he
      · rw [show parseTranscript jsonText data = .ok (jsonText.getD "")
          from by simp [parseTranscript, hj]] at he
        cases he
    · rintro ⟨h1, h2⟩
      exact ⟨.invalid "invalid transcription response",
        by simp [parseTranscript, h1, h2]⟩

/-- Witness for C9 at the plain-text body of the claim. -/
theorem c9_parse_transcript_witness :
    parseTranscript none "hello\nworld" = .ok "hello world" ∧
    (clientTranscribe "k" none (some ⟨200, "hello\nworld"⟩) 7 none).result =
      .ok "hello world" := by
  have h := c9_parse_transcript none "hello\nworld"
  refine ⟨h.2.2.2.2, ?_⟩
  rw [h.1 "k" none 7, h.2.2.2.2]

/-- Claim C10: only HTTP 200 is treated as success — for every other status,
including other 2xx codes, all three client operations return an upstream
error carrying that status instead of parsing the body. -/
theorem c10_only_200_is_success (apiKey : String) (rk : Option String)
    (status : Nat) (body : String) (ems : Nat) (jsonText : Option String)
    (payload : Option ChatPayload) (hne : status ≠ 200) :
    (clientTranscribe apiKey rk (some ⟨status, body⟩) ems jsonText).result =
      .error (.upstream status (truncateBody body)) ∧
    (clientChatCompletion apiKey rk (some ⟨status, body⟩) ems payload).result =
      .error (.upstream status (truncateBody body)) ∧
    (clientCheckModels apiKey rk (some ⟨status, body⟩) ems).result =
      .error (.upstream status (truncateBody body)) := by
  exact ⟨by simp [clientTranscribe, hne], by simp [clientChatCompletion, hne],
    by simp [clientCheckModels, hne]⟩

/-- Witness for C10 at 201 and 204 responses. -/
theorem c10_only_200_witness :
    ((201 : Nat) ≠ 200) ∧
    (clientTranscribe "k" none (some ⟨201, "created"⟩) 1 (some "text")).result =
      .error (.upstream 201 "created") ∧
    (clientChatCompletion "k" none (some ⟨204, ""⟩) 1 (some ⟨["hi"], none⟩)).result =
      .error (.upstream 204 "") := by
  refine ⟨by decide, ?_, ?_⟩
  · have h := (c10_only_200_is_success "k" none 201 "created" 1 (some "text")
      (some ⟨["hi"], none⟩) (by decide)).1
    rw [h]; decide
  · have h := (c10_only_200_is_success "k" none 204 "" 1 (some "text")
      (some ⟨["hi"], none⟩) (by decide)).2.1
    rw [h]; decide
